import Mathlib

/-!
Verification development for the `novo` content-pipeline repository.

Strings are modelled as `List Char`.  Each definition translates one Python
function of the repository (file and line references in the doc comments).
Regular expressions are modelled by executable search functions implementing
the leftmost-match-with-backtracking semantics of Python's `re` module for
the concrete patterns occurring in the code.
-/

set_option maxRecDepth 40000

/-! ## Basic string utilities (Python `str` operations restricted to the
character classes actually produced by the code: ASCII digits, ASCII case
folding; Python's `\s` on these inputs is the six ASCII whitespace chars). -/

/-- Python whitespace (`str.strip`, regex `\s`) restricted to ASCII. -/
def isPyWs (c : Char) : Bool :=
  c = ' ' || c = '\t' || c = '\n' || c = '\r' || c = '\x0b' || c = '\x0c'

/-- Python `str.strip()`. -/
def pstrip (l : List Char) : List Char :=
  ((l.dropWhile isPyWs).reverse.dropWhile isPyWs).reverse

/-- Python `str.split(sep)` for a one-character separator. -/
def pysplit (sep : Char) : List Char → List (List Char)
  | [] => [[]]
  | c :: cs =>
    match pysplit sep cs with
    | [] => [[c]]
    | h :: t => if c = sep then [] :: h :: t else (c :: h) :: t

/-- Characterwise ASCII lowercasing (Python `str.lower` on ASCII data). -/
def toLowerL (l : List Char) : List Char := l.map Char.toLower

/-- Python `int()` on the nonempty digit strings produced by the regexes. -/
def natOfDigits (l : List Char) : Nat :=
  l.foldl (fun a c => 10 * a + (c.toNat - 48)) 0

def natDigitsAux : Nat → Nat → List Char
  | 0, _ => []
  | fuel + 1, n =>
    if n < 10 then [Char.ofNat (48 + n)]
    else natDigitsAux fuel (n / 10) ++ [Char.ofNat (48 + n % 10)]

/-- Decimal rendering of a natural number. -/
def natToDec (n : Nat) : List Char := natDigitsAux (n + 1) n

/-- Python `f"{n:02d}"`. -/
def fmt2 (n : Nat) : List Char := if n < 10 then '0' :: natToDec n else natToDec n

/-! ## The `[(\d+):(\d+)]` timestamp regex of
`pipeline_automatizado.py:161` (`timestamp_pattern`), with `re.search`
semantics (leftmost match; the greedy `\d+` runs are maximal digit runs,
which is exact here because `:`/`]` are not digits). -/

/-- Attempt to match `\[(\d+):(\d+)\]` at the head of the list; on success
return the two matched numbers and the remainder after the match
(everything `timestamp_match.end()` onward). -/
def ts_match_at : List Char → Option (Nat × Nat × List Char)
  | '[' :: rest =>
    let d1 := rest.takeWhile Char.isDigit
    if d1 = [] then none
    else
      match rest.drop d1.length with
      | ':' :: r2 =>
        let d2 := r2.takeWhile Char.isDigit
        if d2 = [] then none
        else
          match r2.drop d2.length with
          | ']' :: r3 => some (natOfDigits d1, natOfDigits d2, r3)
          | _ => none
      | _ => none
  | _ => none

/-- `timestamp_pattern.search(line)`: leftmost match of `\[(\d+):(\d+)\]`. -/
def ts_search : List Char → Option (Nat × Nat × List Char)
  | [] => none
  | c :: cs =>
    match ts_match_at (c :: cs) with
    | some r => some r
    | none => ts_search cs

/-! ## The `\(Imagem:?\s*(.*?)\)` image-prompt regex of
`pipeline_automatizado.py:162` (`image_pattern`, IGNORECASE).  After the
literal `(Imagem` and the optional colon, the greedy `\s*` takes the maximal
whitespace run and the lazy `(.*?)` extends to the first `)`; if no `)`
follows, backtracking cannot create one, so the start position is not
viable. -/

/-- Attempt to match the image pattern at the head; returns group 1. -/
def img_match_at : List Char → Option (List Char)
  | '(' :: rest =>
    if toLowerL (rest.take 6) = ['i', 'm', 'a', 'g', 'e', 'm'] then
      let r1 := rest.drop 6
      let r2 := match r1 with
        | ':' :: t => t
        | _ => r1
      let r3 := r2.dropWhile isPyWs
      if r3.contains ')' then some (r3.takeWhile (fun c => ¬(c = ')'))) else none
    else none
  | _ => none

/-- `image_pattern.search(text)`: leftmost match; returns the text before
the match start (for `text[:image_match.start()]`) and group 1. -/
def img_search : List Char → Option (List Char × List Char)
  | [] => none
  | c :: cs =>
    match img_match_at (c :: cs) with
    | some g => some ([], g)
    | none =>
      match img_search cs with
      | some (pre, g) => some (c :: pre, g)
      | none => none

/-! ## `PipelineAutomatizado.parse_script`
(`src/novo/etc/systemd/system/pipeline_automatizado.py:154-207`). -/

/-- One parsed segment (the dict built at `pipeline_automatizado.py:182-187`). -/
structure Segment where
  timestamp : List Char
  time_seconds : Nat
  text : List Char
  image_prompt : List Char
deriving Repr, DecidableEq

/-- The segment opened by a timestamp line: `rest` is the part of the line
after the timestamp match; lines 177-193 of `pipeline_automatizado.py`. -/
def new_segment (m s : Nat) (rest : List Char) : Segment :=
  let text := pstrip rest
  match img_search text with
  | some (pre, g) =>
    { timestamp := fmt2 m ++ ':' :: fmt2 s, time_seconds := m * 60 + s,
      text := pstrip pre, image_prompt := pstrip g }
  | none =>
    { timestamp := fmt2 m ++ ':' :: fmt2 s, time_seconds := m * 60 + s,
      text := text, image_prompt := [] }

/-- The body of the `for line in lines` loop of `parse_script`
(`pipeline_automatizado.py:164-201`); state = (closed segments, open segment). -/
def parse_line (acc : List Segment × Option Segment) (rawLine : List Char) :
    List Segment × Option Segment :=
  let line := pstrip rawLine
  if line = [] then acc
  else
    match ts_search line with
    | some (m, s, rest) =>
      (acc.1 ++ acc.2.toList, some (new_segment m s rest))
    | none =>
      match acc.2 with
      | none => acc
      | some cur =>
        match img_search line with
        | some (_, g) => (acc.1, some { cur with image_prompt := pstrip g })
        | none => (acc.1, some { cur with text := cur.text ++ ' ' :: line })

/-- `PipelineAutomatizado.parse_script` (`pipeline_automatizado.py:154-207`). -/
def parse_script (script : List Char) : List Segment :=
  let r := (pysplit '\n' script).foldl parse_line ([], none)
  r.1 ++ r.2.toList

/-! ## Claim-side parser (C1, amended).  Written from the amended claim's
words: every line matching the timestamp pattern closes the open segment and
opens a new one whose `time_seconds` is `minutes*60+seconds`; every
subsequent non-empty line up to the next timestamp line that contains no
`(Imagem: …)` parenthetical is accumulated (space-joined) into the open
segment's text, while a line containing such a parenthetical only updates
the open segment's image prompt and is not accumulated. -/

def claim_segments : Option Segment → List (List Char) → List Segment
  | openSeg, [] => openSeg.toList
  | openSeg, l :: ls =>
    let line := pstrip l
    if line = [] then claim_segments openSeg ls
    else
      match ts_search line with
      | some (m, s, rest) =>
        openSeg.toList ++ claim_segments (some (new_segment m s rest)) ls
      | none =>
        match openSeg with
        | none => claim_segments none ls
        | some seg =>
          match img_search line with
          | some (_, g) => claim_segments (some { seg with image_prompt := pstrip g }) ls
          | none => claim_segments (some { seg with text := seg.text ++ ' ' :: line }) ls

/-- The script-to-segments behaviour described by the amended claim C1. -/
def claim_parse (script : List Char) : List Segment :=
  claim_segments none (pysplit '\n' script)

theorem parse_line_of_empty {l : List Char} (h : pstrip l = []) (acc : List Segment × Option Segment) :
    parse_line acc l = acc := by
  simp [parse_line, h]

theorem parse_line_of_ts {l : List Char} {m s : Nat} {rest : List Char}
    (h0 : ¬pstrip l = []) (hts : ts_search (pstrip l) = some (m, s, rest))
    (acc : List Segment × Option Segment) :
    parse_line acc l = (acc.1 ++ acc.2.toList, some (new_segment m s rest)) := by
  simp [parse_line, h0, hts]

theorem parse_line_of_img {l : List Char} {pre g : List Char}
    (h0 : ¬pstrip l = []) (hts : ts_search (pstrip l) = none)
    (himg : img_search (pstrip l) = some (pre, g)) (segs : List Segment) (seg : Segment) :
    parse_line (segs, some seg) l = (segs, some { seg with image_prompt := pstrip g }) := by
  simp [parse_line, h0, hts, himg]

theorem parse_line_of_plain {l : List Char}
    (h0 : ¬pstrip l = []) (hts : ts_search (pstrip l) = none)
    (himg : img_search (pstrip l) = none) (segs : List Segment) (seg : Segment) :
    parse_line (segs, some seg) l = (segs, some { seg with text := seg.text ++ ' ' :: pstrip l }) := by
  simp [parse_line, h0, hts, himg]

theorem parse_line_of_no_open {l : List Char}
    (h0 : ¬pstrip l = []) (hts : ts_search (pstrip l) = none) (segs : List Segment) :
    parse_line (segs, none) l = (segs, none) := by
  simp [parse_line, h0, hts]

theorem foldl_parse_line_eq_claim_segments (ls : List (List Char)) :
    ∀ segs openSeg,
      (ls.foldl parse_line (segs, openSeg)).1 ++ (ls.foldl parse_line (segs, openSeg)).2.toList
        = segs ++ claim_segments openSeg ls := by
  induction ls with
  | nil => intro segs openSeg; cases openSeg <;> simp [claim_segments]
  | cons l ls ih =>
    intro segs openSeg
    simp only [List.foldl_cons]
    by_cases h0 : pstrip l = []
    · rw [parse_line_of_empty h0, ih]
      simp [claim_segments, h0]
    · cases hts : ts_search (pstrip l) with
      | some v =>
        obtain ⟨m, s, rest⟩ := v
        rw [parse_line_of_ts h0 hts, ih]
        simp [claim_segments, h0, hts]
      | none =>
        cases openSeg with
        | none =>
          rw [parse_line_of_no_open h0 hts, ih]
          simp [claim_segments, h0, hts]
        | some seg =>
          cases himg : img_search (pstrip l) with
          | some v =>
            obtain ⟨pre, g⟩ := v
            rw [parse_line_of_img h0 hts himg, ih]
            simp [claim_segments, h0, hts, himg]
          | none =>
            rw [parse_line_of_plain h0 hts himg, ih]
            simp [claim_segments, h0, hts, himg]

/-! ## `ScriptGenerator._extract_sections`
(`src/novo/youtube_automation/script_generator.py:185-222`): the pattern
`\[(\d{2}:\d{2})\]\s*([^[\n]+)(.*?)(?=\[\d{2}:\d{2}\]|$)` with `re.DOTALL`
and `re.findall` (leftmost, non-overlapping; the lookahead is not consumed).
The dataclass fields `keywords`, `emotion` and `visual_cues`, computed by
independent per-section helpers, play no part in any claim and are omitted
from the model. -/

/-- Match `\[(\d{2}:\d{2})\]` at the head; on success return group 1
(the five characters `dd:dd`) and the remainder. -/
def ts2_at (l : List Char) : Option (List Char × List Char) :=
  match l with
  | a :: b :: c :: d :: e :: f :: g :: rest =>
    if a = '[' ∧ b.isDigit ∧ c.isDigit ∧ d = ':' ∧ e.isDigit ∧ f.isDigit ∧ g = ']'
    then some ([b, c, ':', e, f], rest)
    else none
  | _ => none

/-- Characters admissible in the `[^[\n]+` title group. -/
def titleOk (c : Char) : Bool := ¬(c = '[') && ¬(c = '\n')

/-- `\s*([^[\n]+)` with the backtracking preference of the regex engine:
the greedy `\s*` consumes as much whitespace as possible such that at least
one `[^[\n]` character follows; returns (group 2, remainder after it). -/
def split_title : List Char → Option (List Char × List Char)
  | [] => none
  | c :: cs =>
    if isPyWs c then
      match split_title cs with
      | some r => some r
      | none =>
        if c = '\n' then none
        else
          let tg := (c :: cs).takeWhile titleOk
          some (tg, (c :: cs).drop tg.length)
    else
      if c = '[' then none
      else
        let tg := (c :: cs).takeWhile titleOk
        some (tg, (c :: cs).drop tg.length)

/-- The lazy `(.*?)` (DOTALL) up to the lookahead `(?=\[\d{2}:\d{2}\]|$)`:
splits off the shortest prefix such that the remainder starts with a
two-digit timestamp, is empty, or is exactly a final newline (Python `$`
without MULTILINE also matches just before a trailing newline). -/
def content_split : List Char → List Char × List Char
  | [] => ([], [])
  | c :: cs =>
    if (ts2_at (c :: cs)).isSome ∨ (c :: cs) = ['\n'] then ([], c :: cs)
    else
      let r := content_split cs
      (c :: r.1, r.2)

/-- Groups 2 and 3 of the section pattern starting right after `]`. -/
def title_content (r : List Char) : Option (List Char × List Char × List Char) :=
  match split_title r with
  | none => none
  | some (tg, rest) =>
    let p := content_split rest
    some (tg, p.1, p.2)

/-- One raw `findall` match of the section pattern (groups 1-3). -/
structure RawMatch where
  ts : List Char
  titleGroup : List Char
  content : List Char
deriving Repr, DecidableEq

/-- `re.findall` of the section pattern: scan left to right; a failed
attempt advances one character, a successful match resumes at the
(unconsumed) lookahead position.  Each step shortens the list, so
`raw.length` steps of fuel suffice. -/
def find_sections_fuel : Nat → List Char → List RawMatch
  | 0, _ => []
  | _ + 1, [] => []
  | fuel + 1, c :: cs =>
    match ts2_at (c :: cs) with
    | some (ts5, r) =>
      match title_content r with
      | some (tg, con, after) => ⟨ts5, tg, con⟩ :: find_sections_fuel fuel after
      | none => find_sections_fuel fuel cs
    | none => find_sections_fuel fuel cs

def find_sections (raw : List Char) : List RawMatch :=
  find_sections_fuel raw.length raw

/-- `ScriptGenerator._timestamp_to_seconds` (`script_generator.py:243-249`):
`minutes, seconds = map(int, timestamp.split(':'))`, any exception → 0. -/
def timestamp_to_seconds (ts : List Char) : Int :=
  match pysplit ':' ts with
  | [a, b] =>
    if a ≠ [] ∧ a.all Char.isDigit ∧ b ≠ [] ∧ b.all Char.isDigit
    then (natOfDigits a : Int) * 60 + (natOfDigits b : Int)
    else 0
  | _ => 0

/-- `ScriptGenerator._calculate_section_duration` (`script_generator.py:224-241`). -/
def calculate_section_duration (all_matches : List RawMatch) (index : Nat) (ts : List Char) : Int :=
  let current := timestamp_to_seconds ts
  if index + 1 ≥ all_matches.length then 60
  else
    match all_matches[index + 1]? with
    | some nxt => timestamp_to_seconds nxt.ts - current
    | none => 60

/-- A section of the parsed script (`ScriptSection`, `script_generator.py:27-36`,
restricted to the fields involved in the claims). -/
structure SSection where
  timestamp : List Char
  title : List Char
  content : List Char
  duration : Int
deriving Repr, DecidableEq

/-- The `ScriptSection` built for match `m` at position `i` of the match
list (`script_generator.py:193-218`, restricted fields). -/
def section_of (all_matches : List RawMatch) (i : Nat) (m : RawMatch) : SSection :=
  { timestamp := m.ts, title := pstrip m.titleGroup, content := pstrip m.content,
    duration := calculate_section_duration all_matches i m.ts }

/-- `for i, (timestamp, title, content) in enumerate(matches)` with an
explicit start index (used at 0). -/
def build_sections (all_matches : List RawMatch) : Nat → List RawMatch → List SSection
  | _, [] => []
  | i, m :: ms => section_of all_matches i m :: build_sections all_matches (i + 1) ms

/-- `ScriptGenerator._extract_sections` (`script_generator.py:185-222`). -/
def extract_sections (raw : List Char) : List SSection :=
  let ms := find_sections raw
  build_sections ms 0 ms

/-- The slice of `VideoScript` involved in claim C9
(`script_generator.py:38-47`, fields `sections` and `total_duration`). -/
structure VideoScriptM where
  sections : List SSection
  total_duration : Int
deriving Repr, DecidableEq

/-- `ScriptGenerator._parse_script`, restricted to the section list and the
`total_duration = sum(section.duration for section in sections)` computation
(`script_generator.py:156-179`; title/description/tags/thumbnail are
independent metadata not involved in any claim). -/
def parse_video_script (raw : List Char) : VideoScriptM :=
  let secs := extract_sections raw
  { sections := secs, total_duration := (secs.map (fun s => s.duration)).sum }

/-! ## `DriveUploader` (`src/novo/drive_uploader.py`). -/

/-- `pathlib.Path.suffix` of a file name (CPython: the part of the final
component from its last `.`, provided that dot is neither the first nor the
last character).  Files are modelled by their final path component. -/
def path_suffix (name : List Char) : List Char :=
  let rev := name.reverse
  let afterR := rev.takeWhile (fun c => ¬(c = '.'))
  match rev.drop afterR.length with
  | [] => []
  | _ :: before =>
    if afterR = [] then []
    else if before = [] then []
    else '.' :: afterR.reverse

/-- Lookup in an association list keyed by strings (Python `dict.get` for
the literal dicts of the code, whose keys are distinct). -/
def alist_get {α : Type} : List (List Char × α) → List Char → Option α
  | [], _ => none
  | (k, v) :: rest, key => if key = k then some v else alist_get rest key

/-- The literal MIME table of `DriveUploader._get_mime_type`
(`drive_uploader.py:227-238`). -/
def mime_types : List (List Char × List Char) :=
  [ (".txt".data, "text/plain".data),
    (".py".data, "text/x-python".data),
    (".json".data, "application/json".data),
    (".mp3".data, "audio/mpeg".data),
    (".wav".data, "audio/wav".data),
    (".mp4".data, "video/mp4".data),
    (".jpg".data, "image/jpeg".data),
    (".jpeg".data, "image/jpeg".data),
    (".png".data, "image/png".data),
    (".gif".data, "image/gif".data) ]

/-- `DriveUploader._get_mime_type` (`drive_uploader.py:225-241`). -/
def get_mime_type (file : List Char) : List Char :=
  match alist_get mime_types (toLowerL (path_suffix file)) with
  | some m => m
  | none => "application/octet-stream".data

/-- The `folder_mapping` dict hard-coded in `upload_directory`
(`drive_uploader.py:173-179`), in insertion order. -/
def folder_mapping : List (List Char × List (List Char)) :=
  [ ("scripts".data, [".py".data, ".txt".data, ".md".data]),
    ("audio".data, [".mp3".data, ".wav".data, ".m4a".data]),
    ("images".data, [".jpg".data, ".jpeg".data, ".png".data, ".gif".data]),
    ("videos".data, [".mp4".data, ".avi".data, ".mov".data]),
    ("data".data, [".json".data, ".csv".data, ".xml".data]) ]

/-- `DriveUploader._determine_target_folder` (`drive_uploader.py:243-251`):
first mapping entry whose extension list contains the lowercased suffix,
else the `'data'` default. -/
def determine_target_folder (file : List Char) :
    List (List Char × List (List Char)) → List Char
  | [] => "data".data
  | (name, extensions) :: rest =>
    if toLowerL (path_suffix file) ∈ extensions then name
    else determine_target_folder file rest

/-- Python `str.capitalize()` (ASCII), used for the subfolder display names. -/
def pcapitalize : List Char → List Char
  | [] => []
  | c :: cs => c.toUpper :: toLowerL cs

/-- Errors that can be raised inside `DriveUploader` methods. -/
inductive UpErr
  | invalidDir
  | http
  | fileNotFound
  | keyError
deriving Repr, DecidableEq

/-- A folder returned by the Drive API (`id`, `webViewLink`). -/
structure DriveFolder where
  fid : Nat
  furl : List Char
deriving Repr, DecidableEq

/-- The result dict of `DriveUploader.upload_file` (`drive_uploader.py:136-142`),
without the echoed local path. -/
structure FileInfo where
  fid : List Char
  name : List Char
  url : List Char
  size : Nat
deriving Repr, DecidableEq

/-- `DriveUploader.upload_file` (`drive_uploader.py:104-152`).  `fileExists`
models `file_path.exists()`; `api` models the outcome of the
`files().create(...).execute()` call.  Both `except` arms log and `raise`,
so every exception propagates (modelled as `Except.error`). -/
def upload_file (fileExists : Bool) (api : Except UpErr FileInfo) : Except UpErr FileInfo :=
  if fileExists = false then Except.error UpErr.fileNotFound
  else
    match api with
    | Except.error e => Except.error e
    | Except.ok f => Except.ok f

/-- Observable file-system / API events of `upload_directory`, in order. -/
inductive Ev
  | createFolder (name : List Char)
  | upload (path : List Char)
  | writeUrl (content : List Char)
  | writeInfo
deriving Repr, DecidableEq

/-- The subfolder-creation loop of `upload_directory`
(`drive_uploader.py:181-191`): builds the `subfolders` dict keyed by the
mapping keys; a failing `create_folder` raises out of the loop. -/
def create_subfolders (co : List Char → Except UpErr DriveFolder) :
    List (List Char) → Except UpErr (List (List Char × DriveFolder)) × List Ev
  | [] => (Except.ok [], [])
  | n :: ns =>
    match co (pcapitalize n) with
    | Except.error e => (Except.error e, [Ev.createFolder (pcapitalize n)])
    | Except.ok f =>
      let r := create_subfolders co ns
      ((r.1.map (fun l => (n, f) :: l)), Ev.createFolder (pcapitalize n) :: r.2)

/-- The per-file upload loop of `upload_directory` (`drive_uploader.py:193-211`):
`uploaded_files['subfolders'][target_folder]['id']` is a dict lookup
(`KeyError` if absent, modelled as `UpErr.keyError`), then `upload_file`
(whose exceptions propagate out of the loop). -/
def upload_files_loop (up : List Char → Except UpErr FileInfo)
    (subfolders : List (List Char × DriveFolder)) :
    List (List Char) → Except UpErr (List FileInfo) × List Ev
  | [] => (Except.ok [], [])
  | f :: fs =>
    match alist_get subfolders (determine_target_folder f folder_mapping) with
    | none => (Except.error UpErr.keyError, [])
    | some _ =>
      match up f with
      | Except.error e => (Except.error e, [Ev.upload f])
      | Except.ok info =>
        let r := upload_files_loop up subfolders fs
        ((r.1.map (fun l => info :: l)), Ev.upload f :: r.2)

/-- `DriveUploader._save_upload_info` (`drive_uploader.py:253-269`): writes
`drive_url.txt` then `upload_info.json`; the surrounding try/except only
logs a warning on failure, so a failing write aborts the remaining writes
but raises nothing.  `wUrl`/`wInfo` model whether each local write
succeeds. -/
def save_upload_info (mainUrl : List Char) (wUrl wInfo : Bool) : List Ev :=
  if wUrl then
    if wInfo then [Ev.writeUrl mainUrl, Ev.writeInfo] else [Ev.writeUrl mainUrl]
  else []

/-- The dict returned by `upload_directory` (`drive_uploader.py:164-170`),
restricted to the fields relevant to the claims. -/
structure UploadResult where
  project_name : List Char
  main : DriveFolder
  files : List FileInfo
deriving Repr, DecidableEq

/-- `DriveUploader.upload_directory` (`drive_uploader.py:154-223`).
`dirValid` models the `directory.exists() and directory.is_dir()` check;
`co` the `create_folder` outcomes; `up` the `upload_file` outcomes for each
walked file (in `rglob` order `files`); `wUrl`/`wInfo` the local manifest
writes.  Returns the method's result (or propagated exception) together
with the ordered event trace. -/
def upload_directory (dirValid : Bool) (project_name : List Char)
    (files : List (List Char))
    (co : List Char → Except UpErr DriveFolder)
    (up : List Char → Except UpErr FileInfo)
    (wUrl wInfo : Bool) : Except UpErr UploadResult × List Ev :=
  if dirValid = false then (Except.error UpErr.invalidDir, [])
  else
    match co project_name with
    | Except.error e => (Except.error e, [Ev.createFolder project_name])
    | Except.ok main =>
      let sub := create_subfolders co (folder_mapping.map Prod.fst)
      match sub.1 with
      | Except.error e => (Except.error e, Ev.createFolder project_name :: sub.2)
      | Except.ok subfolders =>
        let upl := upload_files_loop up subfolders files
        match upl.1 with
        | Except.error e => (Except.error e, Ev.createFolder project_name :: sub.2 ++ upl.2)
        | Except.ok infos =>
          (Except.ok { project_name := project_name, main := main, files := infos },
           Ev.createFolder project_name :: sub.2 ++ upl.2 ++ save_upload_info main.furl wUrl wInfo)

/-! ## `PipelineIntegrado` (`src/novo/pipeline_integrado.py`). -/

/-- Exceptions relevant to the pipeline scripts. -/
inductive PyExc
  | attributeError
  | apiError
  | otherError
deriving Repr, DecidableEq

/-- The attributes of a `PipelineIntegrado` instance touched by the claims.
`row_index = none` models the attribute never having been assigned
(`__init__` at `pipeline_integrado.py:36-47` does not set it; only
`_obter_proximo_projeto` at line 151 does), so reading it in that state
raises `AttributeError`. -/
structure PipelineIntegrado where
  sheets_tracking_id : List Char
  today_date : List Char
  status_sheet : Option Unit
  row_index : Option Nat
  project_name : Option (List Char)
deriving Repr, DecidableEq

/-- `PipelineIntegrado.__init__` (`pipeline_integrado.py:36-47`):
`status_sheet` starts as `None` and `_initialize_sheets` runs only when
`SHEETS_TRACKING_ID` is nonempty (`sheetsInitOk` models whether the service
build succeeds; on failure `_initialize_sheets` resets `status_sheet` to
`None`). -/
def pipeline_init (sheets_tracking_id today_date : List Char) (sheetsInitOk : Bool) :
    PipelineIntegrado :=
  { sheets_tracking_id := sheets_tracking_id,
    today_date := today_date,
    status_sheet := if sheets_tracking_id ≠ [] ∧ sheetsInitOk then some () else none,
    row_index := none,
    project_name := none }

/-- The row scan of `_obter_proximo_projeto` (`pipeline_integrado.py:148-152`):
first row (1-based sheet index starting at 2) with at least four cells whose
fourth cell is empty or `"Pendente"`; sets `row_index` and returns the first
cell. -/
def scan_rows (st : PipelineIntegrado) :
    Nat → List (List (List Char)) → PipelineIntegrado × Option (List Char)
  | _, [] => (st, none)
  | i, row :: rest =>
    if row.length ≥ 4 ∧ (row[3]? = some [] ∨ row[3]? = some ("Pendente".data))
    then ({ st with row_index := some i }, some (row.headD []))
    else scan_rows st (i + 1) rest

/-- `PipelineIntegrado._obter_proximo_projeto` (`pipeline_integrado.py:135-157`).
`fetch` models the `values().get(...).execute()` call; its exception is
caught and turned into `None`. -/
def obter_proximo_projeto (st : PipelineIntegrado)
    (fetch : Except PyExc (List (List (List Char)))) :
    PipelineIntegrado × Option (List Char) :=
  if st.status_sheet = none ∨ st.sheets_tracking_id = [] then (st, none)
  else
    match fetch with
    | Except.error _ => (st, none)
    | Except.ok rows => scan_rows st 2 rows

/-- `PipelineIntegrado._update_sheet_status` (`pipeline_integrado.py:76-109`):
a no-op unless a sheet is configured; its own exceptions are caught and
logged, so it never mutates the claim-relevant state. -/
def update_sheet_status (st : PipelineIntegrado) (_row : Nat) : PipelineIntegrado :=
  st

/-- The body of the `try` block of `descobrir_conteudo`
(`pipeline_integrado.py:115-130`): chooses the project name, runs
`content_discovery.py` via `os.system` (whose exit code `subprocess_rc` is
read but never checked, and which raises nothing), then evaluates
`self.row_index` — an `AttributeError` when the attribute was never set —
before calling `_update_sheet_status`.  Returns the mutated state and the
result or the in-flight exception. -/
def descobrir_conteudo_try (st : PipelineIntegrado)
    (fetch : Except PyExc (List (List (List Char)))) (_subprocess_rc : Int) :
    PipelineIntegrado × Except PyExc Bool :=
  let r := obter_proximo_projeto st fetch
  let pname := match r.2 with
    | some n => if n = [] then "Conteudo_Auto_".data ++ r.1.today_date else n
    | none => "Conteudo_Auto_".data ++ r.1.today_date
  let st2 := { r.1 with project_name := some pname }
  match st2.row_index with
  | none => (st2, Except.error PyExc.attributeError)
  | some i => (update_sheet_status st2 i, Except.ok true)

/-- `PipelineIntegrado.descobrir_conteudo` (`pipeline_integrado.py:111-133`):
the `except Exception` arm logs and returns `False`. -/
def descobrir_conteudo (st : PipelineIntegrado)
    (fetch : Except PyExc (List (List (List Char)))) (subprocess_rc : Int) :
    PipelineIntegrado × Bool :=
  let r := descobrir_conteudo_try st fetch subprocess_rc
  match r.2 with
  | Except.ok b => (r.1, b)
  | Except.error _ => (r.1, false)

/-! ## The two orchestrators (claim C5).  Stage outcomes are passed in; the
second component of the result counts how many stage methods were invoked
(each `if` in the source invokes exactly one stage). -/

/-- `PipelineIntegrado.executar_pipeline_completo`
(`pipeline_integrado.py:241-279`): nested truthiness checks over the six
stage calls. -/
def executar_pipeline_completo (d r n i v u : Bool) : Bool × Nat :=
  if d then
    if r then
      if n then
        if i then
          if v then
            if u then (true, 6)
            else (false, 6)
          else (false, 5)
        else (false, 4)
      else (false, 3)
    else (false, 2)
  else (false, 1)

/-- `PipelineAutomatizado.run_pipeline`
(`pipeline_automatizado.py:432-473`): stage 1 returns a topic list (falsy
when empty), stage 2 returns `(project_dir, segments)` (failure when the
dir is `None` or the segment list empty), stages 3-6 return booleans. -/
def run_pipeline (topics : List (List Char)) (project_dir : Option (List Char))
    (segments : List Segment) (narr img vid upl : Bool) : Bool × Nat :=
  if topics = [] then (false, 1)
  else if project_dir = none ∨ segments = [] then (false, 2)
  else if narr = false then (false, 3)
  else if img = false then (false, 4)
  else if vid = false then (false, 5)
  else if upl = false then (false, 6)
  else (true, 6)

/-! ## Error-handling models for claim C4. -/

/-- A discovered topic (`pipeline_automatizado.py:84-90`). -/
structure TopicM where
  title : List Char
  description : List Char
  relevance : List Char
deriving Repr, DecidableEq

/-- The hard-coded fallback topic list of `discover_trending_topics`
(`pipeline_automatizado.py:84-90`). -/
def fallback_topics : List TopicM :=
  [ { title := "Mistérios do Folclore Brasileiro".data,
      description := "Explorando as lendas menos conhecidas do folclore brasileiro".data,
      relevance := "Próximo ao dia do folclore".data } ]

/-- `PipelineAutomatizado.discover_trending_topics`
(`pipeline_automatizado.py:54-104`).  `gen` models the
`model.generate_content` call; `extract` the JSON-array regex search plus
`json.loads` (`.ok none` = no match, fallback list; `.error` = a raised
`json` decode error); `save` the topic-file write.  Any raised exception is
caught by the `except Exception` arm, which logs and returns `[]`. -/
def discover_trending_topics (gen : Except PyExc (List Char))
    (extract : List Char → Except PyExc (Option (List TopicM)))
    (save : Except PyExc Unit) : List TopicM :=
  match gen with
  | Except.error _ => []
  | Except.ok content =>
    match extract content with
    | Except.error _ => []
    | Except.ok r =>
      let topics := r.getD fallback_topics
      match save with
      | Except.error _ => []
      | Except.ok _ => topics

/-- `PipelineAutomatizado.generate_narration`
(`pipeline_automatizado.py:209-257`): `subproc` models the
`subprocess.run` call on the TTS module; a raised exception is caught and
`False` returned, a nonzero return code also yields `False`. -/
def generate_narration (subproc : Except PyExc Int) : Bool :=
  match subproc with
  | Except.error _ => false
  | Except.ok rc => if rc ≠ 0 then false else true

/-! ## Claims C1 and C2. -/

/-- Whether `needle` occurs as a contiguous substring of `hay`. -/
def occurs_in (needle : List Char) : List Char → Bool
  | [] => needle.isEmpty
  | c :: cs => needle.isPrefixOf (c :: cs) || occurs_in needle cs

/-- The counterexample input for C1: a continuation line consisting of an
`(Imagem: …)` parenthetical. -/
def c1_input : List Char := "[0:05] A\n(Imagem: x)\nB".data

/-- C1 (counterexample): the claim states that every subsequent non-empty
line up to the next timestamp line is accumulated into the open segment's
text; on this input the non-empty continuation line `(Imagem: x)` is not
accumulated — the parsed text is `"A B"` and does not contain it (the line
is consumed to set the image prompt instead). -/
theorem c1_counterexample :
    parse_script c1_input
      = [{ timestamp := "00:05".data, time_seconds := 5,
           text := "A B".data, image_prompt := "x".data }]
    ∧ occurs_in ("(Imagem: x)".data)
        ((parse_script c1_input).headD
          { timestamp := [], time_seconds := 0, text := [], image_prompt := [] }).text
      = false := by
  constructor
  · decide
  · decide

/-- C1 (amended): `parse_script` treats any line matching
`\[(\d+):(\d+)\]` as a segment boundary, opening a segment with
`time_seconds = minutes*60+seconds`; every subsequent non-empty line up to
the next timestamp line that contains no `(Imagem: …)` parenthetical is
accumulated (space-joined) into the open segment's text, and a line
containing such a parenthetical only updates the image prompt.  Stated as:
`parse_script` coincides with the parser `claim_parse` defined from exactly
that description. -/
theorem c1_parse_script_refines_claim (script : List Char) :
    parse_script script = claim_parse script := by
  unfold parse_script claim_parse
  have h := foldl_parse_line_eq_claim_segments (pysplit '\n' script) [] none
  simpa using h

/-- The counterexample input for C2: text follows the parenthetical on the
boundary line. -/
def c2_input : List Char := "[00:00] Hello (Imagem: forest) world".data

/-- C2 (counterexample): the claim states that only the parenthetical is
removed from the narration text; on this input the code keeps only the text
preceding the parenthetical — `" world"` is dropped as well, so the parsed
text is `"Hello"`, not `"Hello world"`. -/
theorem c2_counterexample :
    parse_script c2_input
      = [{ timestamp := "00:00".data, time_seconds := 0,
           text := "Hello".data, image_prompt := "forest".data }]
    ∧ occurs_in ("world".data)
        ((parse_script c2_input).headD
          { timestamp := [], time_seconds := 0, text := [], image_prompt := [] }).text
      = false := by
  constructor
  · decide
  · decide

/-- C2 (amended): when a parsed segment contains an `(Imagem: …)`-style
parenthetical, its inner text becomes the segment's `image_prompt`; on the
boundary line the narration text is truncated at the parenthetical's start
(text after the parenthetical is dropped too), and a continuation line
containing such a parenthetical is dropped from the narration text
entirely (only the prompt is taken from it). -/
theorem c2_image_prompt_extraction :
    (∀ (m s : Nat) (rest pre g : List Char),
      img_search (pstrip rest) = some (pre, g) →
      new_segment m s rest
        = { timestamp := fmt2 m ++ ':' :: fmt2 s, time_seconds := m * 60 + s,
            text := pstrip pre, image_prompt := pstrip g })
    ∧ (∀ (segs : List Segment) (openSeg : Option Segment) (line : List Char) (m s : Nat)
        (rest : List Char),
      ¬pstrip line = [] → ts_search (pstrip line) = some (m, s, rest) →
      parse_line (segs, openSeg) line = (segs ++ openSeg.toList, some (new_segment m s rest)))
    ∧ (∀ (segs : List Segment) (seg : Segment) (line pre g : List Char),
      ¬pstrip line = [] → ts_search (pstrip line) = none →
      img_search (pstrip line) = some (pre, g) →
      parse_line (segs, some seg) line = (segs, some { seg with image_prompt := pstrip g })) := by
  refine ⟨?_, ?_, ?_⟩
  · intro m s rest pre g h
    simp [new_segment, h]
  · intro segs openSeg line m s rest h0 hts
    exact parse_line_of_ts h0 hts (segs, openSeg)
  · intro segs seg line pre g h0 hts himg
    exact parse_line_of_img h0 hts himg segs seg

/-- C2 witness: the amended extraction evaluated on the boundary-line
remainder `" Hello (Imagem: forest) world"`. -/
theorem c2_image_prompt_extraction_witness :
    img_search (pstrip (" Hello (Imagem: forest) world".data))
      = some ("Hello ".data, "forest".data)
    ∧ new_segment 0 0 (" Hello (Imagem: forest) world".data)
      = { timestamp := fmt2 0 ++ ':' :: fmt2 0, time_seconds := 0 * 60 + 0,
          text := pstrip ("Hello ".data), image_prompt := pstrip ("forest".data) } :=
  ⟨by decide,
   c2_image_prompt_extraction.1 0 0 (" Hello (Imagem: forest) world".data)
     ("Hello ".data) ("forest".data) (by decide)⟩

/-! ## Claim C3. -/

theorem dropWhile_dropWhile (p : Char → Bool) (l : List Char) :
    (l.dropWhile p).dropWhile p = l.dropWhile p := by
  induction l with
  | nil => rfl
  | cons c cs ih =>
    by_cases h : p c = true
    · rw [List.dropWhile_cons_of_pos h]; exact ih
    · rw [List.dropWhile_cons_of_neg h, List.dropWhile_cons_of_neg h]

theorem pstrip_dropWhile (l : List Char) : pstrip (l.dropWhile isPyWs) = pstrip l := by
  unfold pstrip
  rw [dropWhile_dropWhile]

theorem dropWhile_ne_nil_of_pstrip {l : List Char} (h : pstrip l ≠ []) :
    l.dropWhile isPyWs ≠ [] := by
  intro hd
  apply h
  unfold pstrip
  rw [hd]
  rfl

theorem find_sections_fuel_nil (f : Nat) : find_sections_fuel f [] = [] := by
  cases f <;> rfl

theorem split_title_all_ok (ts : List Char) :
    '[' ∉ ts → '\n' ∉ ts → ts.dropWhile isPyWs ≠ [] →
    split_title ts = some (ts.dropWhile isPyWs, []) := by
  induction ts with
  | nil => intro _ _ h; simp at h
  | cons c cs ih =>
    intro hbr hnl hne
    by_cases hw : isPyWs c = true
    · rw [List.dropWhile_cons_of_pos hw] at hne ⊢
      have h2 := ih (fun h => hbr (List.mem_cons_of_mem _ h))
        (fun h => hnl (List.mem_cons_of_mem _ h)) hne
      simp [split_title, hw, h2]
    · rw [List.dropWhile_cons_of_neg hw]
      have hcb : ¬c = '[' := fun h => hbr (by simp [h])
      have hall : ∀ x ∈ c :: cs, titleOk x = true := by
        intro x hx
        have hx1 : ¬x = '[' := fun h => hbr (h ▸ hx)
        have hx2 : ¬x = '\n' := fun h => hnl (h ▸ hx)
        simp [titleOk, hx1, hx2]
      have htw : (c :: cs).takeWhile titleOk = c :: cs :=
        List.takeWhile_eq_self_iff.mpr hall
      simp [split_title, hw, hcb, htw, List.drop_length]

/-- The section-extraction fixture of
`TestScriptGenerator.test_section_extraction` (`test_pipeline.py:146-155`). -/
def fx3 : List Char :=
  ("\n            [00:00] Introdução\n            Bem-vindos ao nosso canal sobre mistérios fascinantes do Brasil.\n            \n            [01:30] Primeiro Mistério\n            Hoje vamos explorar o mistério da cidade perdida de Z.\n            \n            [03:00] Conclusão\n            Obrigado por assistir nosso vídeo!\n            ").data

/-- C3: for every single line of the form `[MM:SS] Title` (two-digit
fields, the title free of `[` and newlines and not all whitespace) the
extractor returns exactly one section carrying that timestamp string and
the trimmed title; and on the test-suite fixture the extracted
(timestamp, title) pairs are those asserted by
`test_section_extraction`. -/
theorem c3_section_extraction :
    (∀ (m1 m2 s1 s2 : Char) (ts : List Char),
      m1.isDigit = true → m2.isDigit = true → s1.isDigit = true → s2.isDigit = true →
      '[' ∉ ts → '\n' ∉ ts → pstrip ts ≠ [] →
      extract_sections ('[' :: m1 :: m2 :: ':' :: s1 :: s2 :: ']' :: ' ' :: ts)
        = [{ timestamp := [m1, m2, ':', s1, s2], title := pstrip ts,
             content := [], duration := 60 }])
    ∧ (extract_sections fx3).map (fun s => (s.timestamp, s.title))
      = [("00:00".data, "Introdução".data),
         ("01:30".data, "Primeiro Mistério".data),
         ("03:00".data, "Conclusão".data)] := by
  constructor
  · intro m1 m2 s1 s2 ts hm1 hm2 hs1 hs2 hbr hnl hne
    have hdw : ts.dropWhile isPyWs ≠ [] := dropWhile_ne_nil_of_pstrip hne
    have hsp : split_title ts = some (ts.dropWhile isPyWs, []) :=
      split_title_all_ok ts hbr hnl hdw
    have hsp2 : split_title (' ' :: ts) = some (ts.dropWhile isPyWs, []) := by
      simp [split_title, hsp, isPyWs]
    have hts2 : ts2_at ('[' :: m1 :: m2 :: ':' :: s1 :: s2 :: ']' :: ' ' :: ts)
        = some ([m1, m2, ':', s1, s2], ' ' :: ts) := by
      simp [ts2_at, hm1, hm2, hs1, hs2]
    have htc : title_content (' ' :: ts) = some (ts.dropWhile isPyWs, [], []) := by
      simp [title_content, hsp2, content_split]
    have hfind : find_sections ('[' :: m1 :: m2 :: ':' :: s1 :: s2 :: ']' :: ' ' :: ts)
        = [⟨[m1, m2, ':', s1, s2], ts.dropWhile isPyWs, []⟩] := by
      unfold find_sections
      rw [List.length_cons]
      simp only [find_sections_fuel, hts2, htc]
    simp only [extract_sections, hfind, build_sections, section_of,
      calculate_section_duration, pstrip_dropWhile]
    simp [pstrip]
  · decide

/-- C3 witness: the general statement applied to the spec's fixture line
`"[00:30] Primeiro Mistério"`. -/
theorem c3_section_extraction_witness :
    extract_sections ("[00:30] Primeiro Mistério".data)
      = [{ timestamp := "00:30".data, title := pstrip ("Primeiro Mistério".data),
           content := [], duration := 60 }] :=
  c3_section_extraction.1 '0' '0' '3' '0' ("Primeiro Mistério".data)
    (by decide) (by decide) (by decide) (by decide) (by decide) (by decide) (by decide)

/-! ## Claim C9. -/

theorem build_sections_length (all : List RawMatch) :
    ∀ (i : Nat) (ms : List RawMatch), (build_sections all i ms).length = ms.length := by
  intro i ms
  induction ms generalizing i with
  | nil => rfl
  | cons m ms ih => simp [build_sections, ih]

theorem build_sections_getElem (all : List RawMatch) :
    ∀ (ms : List RawMatch) (i j : Nat),
      (build_sections all i ms)[j]? = (ms[j]?).map (section_of all (i + j)) := by
  intro ms
  induction ms with
  | nil => intro i j; simp [build_sections]
  | cons m ms ih =>
    intro i j
    cases j with
    | zero => simp [build_sections]
    | succ j =>
      simp only [build_sections, List.getElem?_cons_succ]
      rw [ih (i + 1) j]
      have : i + 1 + j = i + (j + 1) := by omega
      rw [this]

/-- C9: in every extracted section list, each section except the last has
duration equal to the next section's timestamp in seconds minus its own
timestamp in seconds, the last section's duration is 60 seconds, and the
assembled `VideoScript`'s `total_duration` is the sum of all section
durations. -/
theorem c9_section_durations (raw : List Char) :
    (∀ (i : Nat) (sec1 sec2 : SSection),
      (extract_sections raw)[i]? = some sec1 →
      (extract_sections raw)[i + 1]? = some sec2 →
      sec1.duration
        = timestamp_to_seconds sec2.timestamp - timestamp_to_seconds sec1.timestamp)
    ∧ (∀ h : extract_sections raw ≠ [],
        ((extract_sections raw).getLast h).duration = 60)
    ∧ (parse_video_script raw).total_duration
      = ((parse_video_script raw).sections.map (fun s => s.duration)).sum := by
  refine ⟨?_, ?_, rfl⟩
  · intro i sec1 sec2 h1 h2
    unfold extract_sections at h1 h2
    rw [build_sections_getElem] at h1 h2
    rcases Option.map_eq_some'.mp h1 with ⟨m1, hm1, hs1⟩
    rcases Option.map_eq_some'.mp h2 with ⟨m2, hm2, hs2⟩
    have hlt : i + 1 < (find_sections raw).length := (List.getElem?_eq_some.mp hm2).1
    subst hs1 hs2
    simp only [section_of, calculate_section_duration]
    rw [if_neg (by omega)]
    simp only [Nat.zero_add] at hm2 ⊢
    rw [hm2]
  · intro h
    have hlen : (extract_sections raw).length = (find_sections raw).length := by
      unfold extract_sections; exact build_sections_length _ _ _
    have hpos : 0 < (extract_sections raw).length := List.length_pos.mpr h
    obtain ⟨k, hk⟩ : ∃ k, (extract_sections raw).length = k + 1 :=
      ⟨(extract_sections raw).length - 1, by omega⟩
    have hL : (extract_sections raw).getLast? = some ((extract_sections raw).getLast h) :=
      List.getLast?_eq_getLast _ h
    have hL2 : (extract_sections raw).getLast?
        = (extract_sections raw)[(extract_sections raw).length - 1]? :=
      List.getLast?_eq_getElem? _
    have hidx : (extract_sections raw)[k]?
        = ((find_sections raw)[k]?).map (section_of (find_sections raw) (0 + k)) := by
      unfold extract_sections
      exact build_sections_getElem _ _ _ _
    have hklt : k < (find_sections raw).length := by omega
    obtain ⟨m, hm⟩ : ∃ m, (find_sections raw)[k]? = some m :=
      ⟨_, List.getElem?_eq_getElem hklt⟩
    have hchain : some ((extract_sections raw).getLast h)
        = some (section_of (find_sections raw) (0 + k) m) := by
      rw [← hL, hL2, hk]
      simpa [hm] using hidx
    have hlast : (extract_sections raw).getLast h = section_of (find_sections raw) (0 + k) m :=
      Option.some.inj hchain
    rw [hlast]
    simp only [section_of, calculate_section_duration]
    rw [if_pos (by omega)]

/-- C9 witness: the duration relations evaluated on the test fixture
(sections at 00:00, 01:30 and 03:00; durations 90, 90 and 60). -/
theorem c9_section_durations_witness :
    (extract_sections fx3)[0]?
      = some { timestamp := "00:00".data, title := "Introdução".data,
               content := "Bem-vindos ao nosso canal sobre mistérios fascinantes do Brasil.".data,
               duration := 90 }
    ∧ (extract_sections fx3)[0 + 1]?
      = some { timestamp := "01:30".data, title := "Primeiro Mistério".data,
               content := "Hoje vamos explorar o mistério da cidade perdida de Z.".data,
               duration := 90 }
    ∧ (90 : Int)
      = timestamp_to_seconds ("01:30".data) - timestamp_to_seconds ("00:00".data)
    ∧ ((extract_sections fx3).getLast (by decide)).duration = 60 :=
  ⟨by decide, by decide,
   (c9_section_durations fx3).1 0
     { timestamp := "00:00".data, title := "Introdução".data,
       content := "Bem-vindos ao nosso canal sobre mistérios fascinantes do Brasil.".data,
       duration := 90 }
     { timestamp := "01:30".data, title := "Primeiro Mistério".data,
       content := "Hoje vamos explorar o mistério da cidade perdida de Z.".data,
       duration := 90 }
     (by decide) (by decide),
   (c9_section_durations fx3).2.1 (by decide)⟩

/-! ## Claim C5. -/

/-- C5: in both orchestrators, a failing stage prevents every later stage
from being invoked (the invocation count equals the position of the first
failing stage) and makes the run return `False`; the run returns `True`
exactly when all six stages succeed, in which case all six were invoked. -/
theorem c5_pipeline_aborts_on_failure :
    (∀ d r n i v u : Bool,
      ((executar_pipeline_completo d r n i v u).1 = true
        ↔ (d = true ∧ r = true ∧ n = true ∧ i = true ∧ v = true ∧ u = true))
      ∧ (d = false → executar_pipeline_completo d r n i v u = (false, 1))
      ∧ (d = true → r = false → executar_pipeline_completo d r n i v u = (false, 2))
      ∧ (d = true → r = true → n = false → executar_pipeline_completo d r n i v u = (false, 3))
      ∧ (d = true → r = true → n = true → i = false →
          executar_pipeline_completo d r n i v u = (false, 4))
      ∧ (d = true → r = true → n = true → i = true → v = false →
          executar_pipeline_completo d r n i v u = (false, 5))
      ∧ (d = true → r = true → n = true → i = true → v = true → u = false →
          executar_pipeline_completo d r n i v u = (false, 6))
      ∧ ((executar_pipeline_completo d r n i v u).1 = true →
          (executar_pipeline_completo d r n i v u).2 = 6))
    ∧ (∀ (topics : List (List Char)) (pd : Option (List Char)) (segs : List Segment)
        (n i v u : Bool),
      ((run_pipeline topics pd segs n i v u).1 = true
        ↔ (topics ≠ [] ∧ pd ≠ none ∧ segs ≠ [] ∧ n = true ∧ i = true ∧ v = true ∧ u = true))
      ∧ (topics = [] → run_pipeline topics pd segs n i v u = (false, 1))
      ∧ (topics ≠ [] → (pd = none ∨ segs = []) →
          run_pipeline topics pd segs n i v u = (false, 2))
      ∧ (topics ≠ [] → pd ≠ none → segs ≠ [] → n = false →
          run_pipeline topics pd segs n i v u = (false, 3))
      ∧ (topics ≠ [] → pd ≠ none → segs ≠ [] → n = true → i = false →
          run_pipeline topics pd segs n i v u = (false, 4))
      ∧ (topics ≠ [] → pd ≠ none → segs ≠ [] → n = true → i = true → v = false →
          run_pipeline topics pd segs n i v u = (false, 5))
      ∧ (topics ≠ [] → pd ≠ none → segs ≠ [] → n = true → i = true → v = true → u = false →
          run_pipeline topics pd segs n i v u = (false, 6))) := by
  constructor
  · intro d r n i v u
    cases d <;> cases r <;> cases n <;> cases i <;> cases v <;> cases u <;>
      simp [executar_pipeline_completo]
  · intro topics pd segs n i v u
    by_cases ht : topics = [] <;> by_cases hp : pd = none <;> by_cases hs : segs = [] <;>
      cases n <;> cases i <;> cases v <;> cases u <;>
        simp [run_pipeline, ht, hp, hs]

/-- C5 witness: a stage-three failure in each orchestrator aborts at stage
three with result `False`. -/
theorem c5_pipeline_aborts_on_failure_witness :
    executar_pipeline_completo true true false true true true = (false, 3)
    ∧ run_pipeline ["tema".data] (some ("dir".data))
        [{ timestamp := "00:00".data, time_seconds := 0, text := [], image_prompt := [] }]
        false true true true = (false, 3) :=
  ⟨(c5_pipeline_aborts_on_failure.1 true true false true true true).2.2.2.1 rfl rfl rfl,
   (c5_pipeline_aborts_on_failure.2 ["tema".data] (some ("dir".data))
      [{ timestamp := "00:00".data, time_seconds := 0, text := [], image_prompt := [] }]
      false true true true).2.2.2.1 (by decide) (by decide) (by decide) rfl⟩

/-! ## Claim C7. -/

theorem alist_get_of_not_mem {α : Type} (l : List (List Char × α)) (key : List Char)
    (h : key ∉ l.map Prod.fst) : alist_get l key = none := by
  induction l with
  | nil => rfl
  | cons p rest ih =>
    simp only [List.map_cons, List.mem_cons] at h
    push_neg at h
    simp only [alist_get, ih h.2, if_neg h.1]

/-- C7: every extension listed in the MIME table, matched case-insensitively
on the file suffix, maps to the table's MIME type, and every suffix not in
the table maps to `application/octet-stream`. -/
theorem c7_mime_type_lookup :
    (∀ (name ext mime : List Char), (ext, mime) ∈ mime_types →
      toLowerL (path_suffix name) = ext → get_mime_type name = mime)
    ∧ (∀ name : List Char, toLowerL (path_suffix name) ∉ mime_types.map Prod.fst →
      get_mime_type name = "application/octet-stream".data) := by
  constructor
  · intro name ext mime hmem hsuf
    simp only [mime_types, List.mem_cons, List.not_mem_nil, or_false,
      Prod.mk.injEq] at hmem
    unfold get_mime_type
    rw [hsuf]
    rcases hmem with ⟨h1, h2⟩ | ⟨h1, h2⟩ | ⟨h1, h2⟩ | ⟨h1, h2⟩ | ⟨h1, h2⟩ | ⟨h1, h2⟩
      | ⟨h1, h2⟩ | ⟨h1, h2⟩ | ⟨h1, h2⟩ | ⟨h1, h2⟩ <;>
      (subst h1; subst h2; decide)
  · intro name h
    unfold get_mime_type
    rw [alist_get_of_not_mem _ _ h]

/-- C7 witness: an upper-case `.MP4` suffix resolves to `video/mp4` and an
unknown suffix to the octet-stream default. -/
theorem c7_mime_type_lookup_witness :
    get_mime_type ("video.MP4".data) = "video/mp4".data
    ∧ get_mime_type ("segments.unknown".data) = "application/octet-stream".data :=
  ⟨c7_mime_type_lookup.1 ("video.MP4".data) (".mp4".data) ("video/mp4".data)
     (by decide) (by decide),
   c7_mime_type_lookup.2 ("segments.unknown".data) (by decide)⟩

/-! ## Claim C8. -/

/-- C8: with no tracking spreadsheet configured (`SHEETS_TRACKING_ID`
empty), `row_index` is never set, the status update inside
`descobrir_conteudo`'s try block raises `AttributeError`, the method
returns `False`, and `executar_pipeline_completo` therefore always fails at
stage 1, whatever the content-discovery subprocess returned. -/
theorem c8_unconfigured_sheet_always_fails :
    ∀ (today : List Char) (sheetsInitOk : Bool)
      (fetch : Except PyExc (List (List (List Char)))) (rc : Int) (r n i v u : Bool),
      (pipeline_init [] today sheetsInitOk).row_index = none
      ∧ (descobrir_conteudo_try (pipeline_init [] today sheetsInitOk) fetch rc).2
          = Except.error PyExc.attributeError
      ∧ (descobrir_conteudo (pipeline_init [] today sheetsInitOk) fetch rc).1.row_index = none
      ∧ (descobrir_conteudo (pipeline_init [] today sheetsInitOk) fetch rc).2 = false
      ∧ executar_pipeline_completo
          ((descobrir_conteudo (pipeline_init [] today sheetsInitOk) fetch rc).2) r n i v u
          = (false, 1) := by
  intro today sheetsInitOk fetch rc r n i v u
  have hinit : (pipeline_init [] today sheetsInitOk).row_index = none := rfl
  have hsheet : (pipeline_init [] today sheetsInitOk).status_sheet = none := by
    simp [pipeline_init]
  have hob : obter_proximo_projeto (pipeline_init [] today sheetsInitOk) fetch
      = (pipeline_init [] today sheetsInitOk, none) := by
    simp [obter_proximo_projeto, hsheet]
  have htry : (descobrir_conteudo_try (pipeline_init [] today sheetsInitOk) fetch rc).2
      = Except.error PyExc.attributeError := by
    simp [descobrir_conteudo_try, hob, hinit]
  have htry1 : (descobrir_conteudo_try (pipeline_init [] today sheetsInitOk) fetch rc).1.row_index
      = none := by
    simp [descobrir_conteudo_try, hob, hinit]
  have hfalse : (descobrir_conteudo (pipeline_init [] today sheetsInitOk) fetch rc).2 = false := by
    simp [descobrir_conteudo, htry]
  refine ⟨hinit, htry, ?_, hfalse, ?_⟩
  · simp [descobrir_conteudo, htry, htry1]
  · rw [hfalse]
    simp [executar_pipeline_completo]

/-! ## Claim C10. -/

theorem determine_target_folder_mem (file : List Char) :
    ∀ mapping : List (List Char × List (List Char)),
      determine_target_folder file mapping ∈ mapping.map Prod.fst
      ∨ determine_target_folder file mapping = "data".data := by
  intro mapping
  induction mapping with
  | nil => right; rfl
  | cons p rest ih =>
    obtain ⟨n, exts⟩ := p
    by_cases h : toLowerL (path_suffix file) ∈ exts
    · left
      simp [determine_target_folder, h]
    · rcases ih with hm | hd
      · left
        simp only [determine_target_folder, if_neg h]
        exact List.mem_cons_of_mem _ hm
      · right
        simp [determine_target_folder, h, hd]

theorem alist_get_isSome_of_mem_keys {α : Type} (l : List (List Char × α)) (key : List Char)
    (h : key ∈ l.map Prod.fst) : (alist_get l key).isSome = true := by
  induction l with
  | nil => simp at h
  | cons p rest ih =>
    by_cases hk : key = p.1
    · simp [alist_get, hk]
    · simp only [List.map_cons, List.mem_cons] at h
      rcases h with h | h
      · exact absurd h hk
      · simp [alist_get, hk, ih h]

theorem create_subfolders_keys (co : List Char → Except UpErr DriveFolder) :
    ∀ (ns : List (List Char)) (subs : List (List Char × DriveFolder)),
      (create_subfolders co ns).1 = Except.ok subs → subs.map Prod.fst = ns := by
  intro ns
  induction ns with
  | nil =>
    intro subs h
    simp only [create_subfolders] at h
    cases h
    rfl
  | cons n rest ih =>
    intro subs h
    simp only [create_subfolders] at h
    cases hco : co (pcapitalize n) with
    | error e => rw [hco] at h; simp at h
    | ok f =>
      rw [hco] at h
      simp only at h
      cases hr : (create_subfolders co rest).1 with
      | error e => rw [hr] at h; simp [Except.map] at h
      | ok subs2 =>
        rw [hr] at h
        simp only [Except.map] at h
        cases h
        simp [ih subs2 hr]

/-- C10: `_determine_target_folder` always returns a key of the mapping or
the `'data'` default; with the mapping hard-coded in `upload_directory`
(whose keys include `'data'`) the result is always a key of the mapping, so
the `subfolders` dict built from those keys always contains the returned
name and the per-file lookup cannot fail. -/
theorem c10_target_folder_total :
    (∀ (file : List Char) (mapping : List (List Char × List (List Char))),
      determine_target_folder file mapping ∈ mapping.map Prod.fst
      ∨ determine_target_folder file mapping = "data".data)
    ∧ (∀ file : List Char,
      determine_target_folder file folder_mapping ∈ folder_mapping.map Prod.fst)
    ∧ (∀ (co : List Char → Except UpErr DriveFolder) (subs : List (List Char × DriveFolder)),
      (create_subfolders co (folder_mapping.map Prod.fst)).1 = Except.ok subs →
      ∀ file : List Char,
        (alist_get subs (determine_target_folder file folder_mapping)).isSome = true) := by
  have hmem : ∀ file : List Char,
      determine_target_folder file folder_mapping ∈ folder_mapping.map Prod.fst := by
    intro file
    rcases determine_target_folder_mem file folder_mapping with h | h
    · exact h
    · rw [h]
      decide
  refine ⟨determine_target_folder_mem, hmem, ?_⟩
  intro co subs hsubs file
  apply alist_get_isSome_of_mem_keys
  rw [create_subfolders_keys co _ subs hsubs]
  exact hmem file

/-- C10 witness: with always-succeeding folder creation, the lookup for a
file of unmapped extension succeeds (it lands in `data`). -/
theorem c10_target_folder_total_witness :
    (create_subfolders (fun _ => Except.ok ⟨7, "url".data⟩)
        (folder_mapping.map Prod.fst)).1
      = Except.ok
          [("scripts".data, ⟨7, "url".data⟩), ("audio".data, ⟨7, "url".data⟩),
           ("images".data, ⟨7, "url".data⟩), ("videos".data, ⟨7, "url".data⟩),
           ("data".data, ⟨7, "url".data⟩)]
    ∧ (alist_get
        [("scripts".data, (⟨7, "url".data⟩ : DriveFolder)), ("audio".data, ⟨7, "url".data⟩),
         ("images".data, ⟨7, "url".data⟩), ("videos".data, ⟨7, "url".data⟩),
         ("data".data, ⟨7, "url".data⟩)]
        (determine_target_folder ("relatorio.bin".data) folder_mapping)).isSome = true :=
  ⟨by rfl,
   c10_target_folder_total.2.2 (fun _ => Except.ok ⟨7, "url".data⟩) _ (by rfl)
     ("relatorio.bin".data)⟩

/-! ## Claim C4. -/

/-- C4 (counterexample): the claim states that every externally-facing call
of the uploader is wrapped so that the function logs and returns
`None`/`False`/an empty collection; but both `except` arms of
`DriveUploader.upload_file` re-`raise` after logging, so an `HttpError`
(and the `FileNotFoundError` for a missing file) propagates to the caller
instead of producing such a return value. -/
theorem c4_counterexample :
    upload_file true (Except.error UpErr.http) = Except.error UpErr.http
    ∧ upload_file false (Except.ok { fid := "i".data, name := "n".data, url := "u".data, size := 0 })
      = Except.error UpErr.fileNotFound := by
  constructor <;> rfl

/-- C4 (amended): the pipeline-script functions
(`discover_trending_topics`, `generate_narration`, `descobrir_conteudo`, …)
wrap their externally-facing calls in try/except and on any exception log
and return an empty list / `False`; the `DriveUploader` upload methods
(`upload_file`, and hence `create_folder`/`upload_directory`), however, log
and re-raise, propagating the exception to their caller. -/
theorem c4_error_handling :
    (∀ (e : PyExc) (extract : List Char → Except PyExc (Option (List TopicM)))
        (save : Except PyExc Unit),
      discover_trending_topics (Except.error e) extract save = [])
    ∧ (∀ (txt : List Char) (extract : List Char → Except PyExc (Option (List TopicM)))
        (e : PyExc) (save : Except PyExc Unit),
      extract txt = Except.error e →
      discover_trending_topics (Except.ok txt) extract save = [])
    ∧ (∀ (txt : List Char) (extract : List Char → Except PyExc (Option (List TopicM)))
        (e : PyExc),
      discover_trending_topics (Except.ok txt) extract (Except.error e) = [])
    ∧ (∀ e : PyExc, generate_narration (Except.error e) = false)
    ∧ (∀ rc : Int, rc ≠ 0 → generate_narration (Except.ok rc) = false)
    ∧ (∀ (st : PipelineIntegrado) (fetch : Except PyExc (List (List (List Char))))
        (rc : Int) (e : PyExc),
      (descobrir_conteudo_try st fetch rc).2 = Except.error e →
      (descobrir_conteudo st fetch rc).2 = false)
    ∧ (∀ api : Except UpErr FileInfo, upload_file false api = Except.error UpErr.fileNotFound)
    ∧ (∀ e : UpErr, upload_file true (Except.error e) = Except.error e) := by
  refine ⟨?_, ?_, ?_, ?_, ?_, ?_, ?_, ?_⟩
  · intro e extract save
    rfl
  · intro txt extract e save h
    simp [discover_trending_topics, h]
  · intro txt extract e
    simp only [discover_trending_topics]
    cases hx : extract txt with
    | error e2 => simp
    | ok r => simp
  · intro e
    rfl
  · intro rc h
    simp [generate_narration, h]
  · intro st fetch rc e h
    simp [descobrir_conteudo, h]
  · intro api
    rfl
  · intro e
    rfl

/-- C4 witness: the amended behaviour evaluated at concrete outcomes — a
failed JSON extraction yields `[]`, a nonzero TTS return code yields
`False`, and an upload API error propagates. -/
theorem c4_error_handling_witness :
    discover_trending_topics (Except.ok ("resposta".data))
      (fun _ => Except.error PyExc.apiError) (Except.ok ()) = []
    ∧ generate_narration (Except.ok 2) = false
    ∧ upload_file true (Except.error UpErr.fileNotFound) = Except.error UpErr.fileNotFound :=
  ⟨c4_error_handling.2.1 ("resposta".data) (fun _ => Except.error PyExc.apiError)
     PyExc.apiError (Except.ok ()) rfl,
   c4_error_handling.2.2.2.2.1 2 (by decide),
   c4_error_handling.2.2.2.2.2.2.2 UpErr.fileNotFound⟩

/-! ## Claim C6. -/

theorem create_subfolders_spec (co : List Char → Except UpErr DriveFolder) :
    ∀ ns : List (List Char),
      (∃ e, (create_subfolders co ns).1 = Except.error e)
      ∨ (∃ subs, create_subfolders co ns
            = (Except.ok subs, ns.map (fun n => Ev.createFolder (pcapitalize n)))) := by
  intro ns
  induction ns with
  | nil => right; exact ⟨[], rfl⟩
  | cons n rest ih =>
    cases hco : co (pcapitalize n) with
    | error e =>
      left
      exact ⟨e, by simp [create_subfolders, hco]⟩
    | ok f =>
      rcases ih with ⟨e, he⟩ | ⟨subs, hpair⟩
      · left
        refine ⟨e, ?_⟩
        simp only [create_subfolders, hco]
        rw [he]
        rfl
      · right
        refine ⟨(n, f) :: subs, ?_⟩
        simp [create_subfolders, hco, hpair, Except.map]

theorem upload_files_loop_spec (up : List Char → Except UpErr FileInfo)
    (subfolders : List (List Char × DriveFolder)) :
    ∀ files : List (List Char),
      (∃ e, (upload_files_loop up subfolders files).1 = Except.error e)
      ∨ (∃ infos, upload_files_loop up subfolders files
            = (Except.ok infos, files.map Ev.upload)) := by
  intro files
  induction files with
  | nil => right; exact ⟨[], rfl⟩
  | cons f fs ih =>
    cases hl : alist_get subfolders (determine_target_folder f folder_mapping) with
    | none =>
      left
      exact ⟨UpErr.keyError, by simp [upload_files_loop, hl]⟩
    | some d =>
      cases hu : up f with
      | error e =>
        left
        exact ⟨e, by simp [upload_files_loop, hl, hu]⟩
      | ok info =>
        rcases ih with ⟨e, he⟩ | ⟨infos, hpair⟩
        · left
          refine ⟨e, ?_⟩
          simp only [upload_files_loop, hl, hu]
          rw [he]
          rfl
        · right
          refine ⟨info :: infos, ?_⟩
          simp [upload_files_loop, hl, hu, hpair, Except.map]

/-- C6 (counterexample): the claim states that for every successful call of
`upload_directory` the manifest and `drive_url.txt` are written (exactly
once); but `_save_upload_info` swallows its own exceptions, so when the
local write raises, the call still succeeds while neither file has been
written. -/
theorem c6_counterexample :
    (upload_directory true ("P".data) [] (fun _ => Except.ok ⟨1, "url".data⟩)
        (fun _ => Except.ok ⟨"f".data, "n".data, "u".data, 0⟩) false false).1
      = Except.ok { project_name := "P".data, main := ⟨1, "url".data⟩, files := [] }
    ∧ ((upload_directory true ("P".data) [] (fun _ => Except.ok ⟨1, "url".data⟩)
        (fun _ => Except.ok ⟨"f".data, "n".data, "u".data, 0⟩) false false).2.countP
          (fun e => match e with
            | Ev.writeUrl _ => true
            | Ev.writeInfo => true
            | _ => false)) = 0 := by
  constructor
  · rfl
  · rfl

/-- C6 (amended): for every call of `upload_directory` that returns
successfully and whose two local manifest writes do not raise, the event
trace is exactly: create the main folder, create the five subfolders,
upload every walked file, then write `drive_url.txt` (with the main
folder's URL) once and `upload_info.json` once — both writes after all
uploads; if a local write raises, the exception is swallowed and the call
still succeeds with the writes partially or wholly missing. -/
theorem c6_manifest_written_once :
    ∀ (pn : List Char) (files : List (List Char))
      (co : List Char → Except UpErr DriveFolder) (up : List Char → Except UpErr FileInfo)
      (res : UploadResult),
      (upload_directory true pn files co up true true).1 = Except.ok res →
      (upload_directory true pn files co up true true).2
        = Ev.createFolder pn
            :: ((folder_mapping.map Prod.fst).map (fun n => Ev.createFolder (pcapitalize n))
                ++ files.map Ev.upload
                ++ [Ev.writeUrl res.main.furl, Ev.writeInfo]) := by
  intro pn files co up res h
  cases hco : co pn with
  | error e =>
    exfalso
    simp [upload_directory, hco] at h
  | ok main =>
    rcases create_subfolders_spec co (folder_mapping.map Prod.fst) with ⟨e, he⟩ | ⟨subs, hpair⟩
    · exfalso
      simp [upload_directory, hco, he] at h
    · rcases upload_files_loop_spec up subs files with ⟨e, he2⟩ | ⟨infos, hpair2⟩
      · exfalso
        simp [upload_directory, hco, hpair, he2] at h
      · have hres : res = { project_name := pn, main := main, files := infos } := by
          simp [upload_directory, hco, hpair, hpair2] at h
          exact h.symm
        subst hres
        simp [upload_directory, hco, hpair, hpair2, save_upload_info]

/-- C6 witness: a successful upload of one file with succeeding writes
produces exactly one `drive_url.txt` write and one `upload_info.json`
write, after the upload. -/
theorem c6_manifest_written_once_witness :
    (upload_directory true ("P".data) ["a.mp4".data] (fun _ => Except.ok ⟨1, "url".data⟩)
        (fun _ => Except.ok ⟨"f".data, "a.mp4".data, "u".data, 5⟩) true true).1
      = Except.ok { project_name := "P".data, main := ⟨1, "url".data⟩,
                    files := [⟨"f".data, "a.mp4".data, "u".data, 5⟩] }
    ∧ (upload_directory true ("P".data) ["a.mp4".data] (fun _ => Except.ok ⟨1, "url".data⟩)
        (fun _ => Except.ok ⟨"f".data, "a.mp4".data, "u".data, 5⟩) true true).2
      = Ev.createFolder ("P".data)
          :: ((folder_mapping.map Prod.fst).map (fun n => Ev.createFolder (pcapitalize n))
              ++ ["a.mp4".data].map Ev.upload
              ++ [Ev.writeUrl ("url".data), Ev.writeInfo]) :=
  ⟨by rfl,
   c6_manifest_written_once ("P".data) ["a.mp4".data] (fun _ => Except.ok ⟨1, "url".data⟩)
     (fun _ => Except.ok ⟨"f".data, "a.mp4".data, "u".data, 5⟩)
     { project_name := "P".data, main := ⟨1, "url".data⟩,
       files := [⟨"f".data, "a.mp4".data, "u".data, 5⟩] } (by rfl)⟩
